import Mathlib

/-!
# Verification of the x-post-analyzer scoring engine

A shallow embedding of `src/lib/scoring` (six dimension scorers, the
`analyzePost` aggregator, the suggestion generator and the shared
grade/color mapping) of the `x-algo` repository.

Modelling conventions:
* JavaScript numbers that only ever hold integers are modelled as `ℤ`;
  genuinely fractional quantities (ratios, the diversity multiplier,
  `hoursSinceLastPost`) are modelled as `ℚ`.
* `Math.round` on the non-negative values appearing in the code agrees
  with `fun q => ⌊q + 1/2⌋` (JS rounds halves towards +∞), embedded as
  `jsRound`.
* Each scorer consumes the text only through a fixed set of
  regex-derived counts and flags.  `TextFeatures` records one field per
  such feature (the doc comment of every field names the source
  expression it denotes); the scorers themselves are translated
  statement by statement from the source.  Quantifying over all
  `TextFeatures` subsumes quantifying over all input strings, since
  every string induces one feature record.
* The statement form `if (cond) { score += w; details.push({..., weight: w}) }`
  that every scorer body is built from is encoded by the `step`
  combinators below, which update a `(score, details)` pair.
-/

/-- JavaScript `Math.round` for the (non-negative) values used by the
scoring code: round half up, i.e. `⌊q + 1/2⌋` (stated via the
computable `Rat.floor`; see `jsRound_eq_floor`). -/
def jsRound (q : ℚ) : ℤ := (q + 1/2).floor

/-- `Math.max(0, Math.min(100, score))`, the final clamp every scorer
applies. -/
def clampScore (x : ℤ) : ℤ := max 0 (min 100 x)

/-- Values of the `impact` field of a score detail. -/
inductive Impact
  | positive
  | negative
  | neutral
deriving DecidableEq

/-- Letter grades. -/
inductive Grade
  | A
  | B
  | C
  | D
  | F
deriving DecidableEq

/-- Record `ScoreDetail` from `src/types`: one explanatory line of a scorer. -/
structure ScoreDetail where
  factor : String
  impact : Impact
  description : String
  weight : ℤ
deriving DecidableEq

/-- Record `ScoreResult` from `src/types`. -/
structure ScoreResult where
  score : ℤ
  grade : Grade
  label : String
  description : String
  color : String
  details : List ScoreDetail
deriving DecidableEq

/-- The shared `getGrade` helper (identical in all scoring files):
`>= 85 → A, >= 70 → B, >= 55 → C, >= 40 → D, else F`. -/
def getGrade (score : ℤ) : Grade :=
  if 85 ≤ score then .A
  else if 70 ≤ score then .B
  else if 55 ≤ score then .C
  else if 40 ≤ score then .D
  else .F

/-- The shared `getColor` helper (same thresholds, five hex values). -/
def getColor (score : ℤ) : String :=
  if 85 ≤ score then "#00ba7c"
  else if 70 ≤ score then "#1d9bf0"
  else if 55 ≤ score then "#ffd400"
  else if 40 ≤ score then "#ff7a00"
  else "#f4212e"

/-- Numeric rank of a grade, used to compare grades (A best). -/
def gradeRank : Grade → Nat
  | .A => 4
  | .B => 3
  | .C => 2
  | .D => 1
  | .F => 0

/-- Sum of the `weight` fields of a detail list. -/
def sumWeights (ds : List ScoreDetail) : ℤ := (ds.map (·.weight)).sum

/-- Statement pair `score += d.weight; details.push(d)` acting on a
`(score, details)` accumulator pair. -/
def applyDetail (sd : ℤ × List ScoreDetail) (d : ScoreDetail) :
    ℤ × List ScoreDetail :=
  (sd.1 + d.weight, sd.2 ++ [d])

/-- Guarded block `if (c) { score += d.weight; details.push(d) }`. -/
def step (c : Prop) [Decidable c] (sd : ℤ × List ScoreDetail)
    (d : ScoreDetail) : ℤ × List ScoreDetail :=
  if c then applyDetail sd d else sd

/-- Guarded block `if (c₁) {...d₁...} else if (c₂) {...d₂...}`. -/
def step2 (c₁ c₂ : Prop) [Decidable c₁] [Decidable c₂]
    (sd : ℤ × List ScoreDetail) (d₁ d₂ : ScoreDetail) :
    ℤ × List ScoreDetail :=
  if c₁ then applyDetail sd d₁ else if c₂ then applyDetail sd d₂ else sd

/-- Guarded block `if (c₁) {...} else if (c₂) {...} else if (c₃) {...}`. -/
def step3 (c₁ c₂ c₃ : Prop) [Decidable c₁] [Decidable c₂] [Decidable c₃]
    (sd : ℤ × List ScoreDetail) (d₁ d₂ d₃ : ScoreDetail) :
    ℤ × List ScoreDetail :=
  if c₁ then applyDetail sd d₁
  else if c₂ then applyDetail sd d₂
  else if c₃ then applyDetail sd d₃
  else sd

/-- Regex-derived features of the input text.  Every scorer and the
suggestion generator read the text only through expressions of this
shape; each field's doc comment names the exact source expression it
denotes.  Every input string induces one `TextFeatures` record, so
quantifying over `TextFeatures` covers all input strings. -/
structure TextFeatures where
  /-- Count `(text.match(/\?/g) || []).length`. -/
  questionCount : Nat := 0
  /-- Total match count of the five `ctaPatterns` regexes. -/
  ctaCount : Nat := 0
  /-- Total match count of the three `emotionalPatterns` regexes. -/
  emotionalCount : Nat := 0
  /-- Count `(text.match(/@\w+/g) || []).length`. -/
  mentionCount : Nat := 0
  /-- Test of `/\b(thread|🧵|1\/|1\)|a thread)\b/gi`. -/
  hasThreadIndicator : Bool := false
  /-- Test of `/\b\d+\s*(ways|tips|things|reasons|steps|lessons)\b/gi`. -/
  hasNumberedList : Bool := false
  /-- Test of the `storyIndicators` regex. -/
  hasStoryIndicator : Bool := false
  /-- Count `(text.match(/[A-Z]/g) || []).length`. -/
  capsCount : Nat := 0
  /-- Length `text.length`. -/
  textLength : Nat := 0
  /-- Count `(text.match(/#\w+/g) || []).length`. -/
  hashtagCount : Nat := 0
  /-- Count `(text.match(/https?:\/\/\S+/g) || []).length`. -/
  urlCount : Nat := 0
  /-- Test `(text.match(/[!?]{3,}/g) || []).length > 0`. -/
  hasRepeatedPunct : Bool := false
  /-- Test of the `cryptoSpam` regex. -/
  hasCryptoSpam : Bool := false
  /-- Test of the `engagementBait` regex. -/
  hasEngagementBait : Bool := false
  /-- Test of the `divisivePatterns` regex. -/
  hasDivisivePattern : Bool := false
  /-- Count of emoji codepoints, `(text.match(/[\u{1F300}-\u{1F9FF}]/gu) || []).length`. -/
  emojiCount : Nat := 0
  /-- Count of nonempty whitespace-separated words of `text.trim()`. -/
  wordCount : Nat := 0
  /-- Count of nonempty lines, `text.split('\n').filter(l => l.trim().length > 0).length`. -/
  lineCount : Nat := 0
  /-- Length of `text.split('\n')[0].trim()`. -/
  firstLineLength : Nat := 0
  /-- Test of the four `hookPatterns` against the first line. -/
  hasHookPattern : Bool := false
  /-- Test of the `curiosityPatterns`. -/
  hasCuriosityGap : Bool := false
  /-- Test of the quoted-phrase regex. -/
  hasQuote : Bool := false
  /-- Test of the statistics regex `/\b\d+%|\b\d+x\b|\$\d+/`. -/
  hasStats : Bool := false
  /-- Total match count of `COMMONLY_MUTED_PATTERNS`. -/
  mutedKeywordMatches : Nat := 0
  /-- Test of the `shortenerPatterns` regex. -/
  hasLinkShortener : Bool := false
  /-- Test `duplicatePatterns.some(p => p.test(text))`. -/
  hasDuplicateIndicators : Bool := false
  /-- Number of `vfTriggerPatterns` (of the two) that match. -/
  vfTriggerCount : Nat := 0
  /-- Total match count of the `promoPatterns`. -/
  promoCount : Nat := 0
  /-- Count `(text.match(platformPatterns) || []).length`. -/
  platformMentionCount : Nat := 0
  /-- Number of `broadTopics` patterns (of the four) that match. -/
  topicMatchCount : Nat := 0
  /-- Number of `engagingFormat` patterns (of the three) that match. -/
  formatMatchCount : Nat := 0
  /-- Count `(text.match(personalPatterns) || []).length`. -/
  personalPhraseCount : Nat := 0
  /-- Length of `text.replace(/https?:\/\/[^\s]+/g, '').trim()`, the
  non-URL content used by the suggestion generator. -/
  strippedLength : Nat := 0
  /-- Length `text.replace(/\s/g, '').length`. -/
  nonSpaceLength : Nat := 0
  /-- Test of the `hasOpinion` regex of the suggestion generator. -/
  hasOpinion : Bool := false
  /-- Test of the `hasEngagementHook` regex of the suggestion generator. -/
  hasEngagementHook : Bool := false
  /-- Sublist `mutedTerms.filter(term => text.toLowerCase().includes(term))`
  of the six literal terms of the suggestion generator. -/
  foundMutedTerms : List String := []

/-- Scorer `calculateEngagementScore` from `engagementScore.ts`. -/
def calculateEngagementScore (f : TextFeatures) : ScoreResult :=
  let sd : ℤ × List ScoreDetail := (50, [])
  -- 1. Questions boost replies
  let qBoost : ℤ := min ((f.questionCount : ℤ) * 8) 20
  let sd := step (0 < f.questionCount) sd
    ⟨"Questions", .positive,
      toString f.questionCount ++ " question(s) encourage replies (+" ++
        toString qBoost ++ ")", qBoost⟩
  -- 2. Call-to-actions boost engagement
  let ctaBoost : ℤ := min ((f.ctaCount : ℤ) * 5) 15
  let sd := step (0 < f.ctaCount) sd
    ⟨"Call-to-Action", .positive,
      "Contains engagement prompts (+" ++ toString ctaBoost ++ ")", ctaBoost⟩
  -- 3. Emotional/opinion content drives engagement
  let emoBoost : ℤ := min ((f.emotionalCount : ℤ) * 6) 15
  let sd := step (0 < f.emotionalCount) sd
    ⟨"Emotional Language", .positive,
      "Strong emotional words boost engagement (+" ++ toString emoBoost ++ ")",
      emoBoost⟩
  -- 4. Mentions can boost reach
  let sd := step2 (0 < f.mentionCount ∧ f.mentionCount ≤ 3) (3 < f.mentionCount) sd
    ⟨"Mentions", .positive,
      toString f.mentionCount ++ " mention(s) can increase visibility (+" ++
        toString ((f.mentionCount : ℤ) * 3) ++ ")", (f.mentionCount : ℤ) * 3⟩
    ⟨"Too Many Mentions", .negative,
      toString f.mentionCount ++ " mentions may appear spammy (-5)", -5⟩
  -- 5. Thread indicators
  let sd := step (f.hasThreadIndicator = true) sd
    ⟨"Thread Format", .positive, "Threads get higher engagement (+10)", 10⟩
  -- 6. Numbers and lists perform well
  let sd := step (f.hasNumberedList = true) sd
    ⟨"List Format", .positive, "Numbered lists attract attention (+8)", 8⟩
  -- 7. First-person storytelling
  let sd := step (f.hasStoryIndicator = true) sd
    ⟨"Personal Story", .positive, "Personal narratives drive engagement (+7)", 7⟩
  -- Clamp score
  let score := clampScore sd.1
  { score := score, grade := getGrade score, label := "Engagement Potential",
    description := "Likelihood of likes, replies, reposts, and shares",
    color := getColor score, details := sd.2 }

/-- Scorer `calculateRedFlagScore` from `redFlagScore.ts`. -/
def calculateRedFlagScore (f : TextFeatures) : ScoreResult :=
  let sd : ℤ × List ScoreDetail := (100, [])
  -- 1. Excessive caps (shouting)
  let capsFrac : ℚ := (f.capsCount : ℚ) / ((max f.textLength 1 : ℕ) : ℚ)
  let sd := step (1/2 < capsFrac ∧ 10 < f.textLength) sd
    ⟨"Excessive Caps", .negative,
      toString (jsRound (capsFrac * 100)) ++ "% caps appears aggressive (-20)", -20⟩
  -- 2. Excessive hashtags (spam indicator)
  let sd := step2 (5 < f.hashtagCount) (3 < f.hashtagCount) sd
    ⟨"Too Many Hashtags", .negative,
      toString f.hashtagCount ++ " hashtags looks spammy (-15)", -15⟩
    ⟨"Many Hashtags", .negative,
      toString f.hashtagCount ++ " hashtags may reduce reach (-5)", -5⟩
  -- 3. Excessive links
  let sd := step (2 < f.urlCount) sd
    ⟨"Multiple Links", .negative,
      toString f.urlCount ++ " links may trigger spam filters (-15)", -15⟩
  -- 4. Repeated punctuation (spam/excitement indicator)
  let sd := step (f.hasRepeatedPunct = true) sd
    ⟨"Excessive Punctuation", .negative,
      "Multiple !!! or ??? appears unprofessional (-10)", -10⟩
  -- 5. Crypto/financial spam patterns
  let sd := step (f.hasCryptoSpam = true) sd
    ⟨"Spam Pattern", .negative,
      "Contains financial spam-like language (-25)", -25⟩
  -- 6. Engagement bait patterns
  let sd := step (f.hasEngagementBait = true) sd
    ⟨"Engagement Bait", .negative,
      "Follow-for-follow patterns are penalized (-20)", -20⟩
  -- 7. Potentially divisive content (higher block/mute risk)
  let sd := step (f.hasDivisivePattern = true) sd
    ⟨"Divisive Language", .negative,
      "Insulting language increases block/mute risk (-15)", -15⟩
  -- 8. All-emoji posts
  let emojiFrac : ℚ := (f.emojiCount : ℚ) / ((max f.textLength 1 : ℕ) : ℚ)
  let sd := step (1/2 < emojiFrac ∧ 5 < f.textLength) sd
    ⟨"Too Many Emojis", .negative,
      "Emoji-heavy posts may be seen as low quality (-10)", -10⟩
  -- Positive: Clean, professional content
  let sd := step (sd.2 = []) sd
    ⟨"Clean Content", .positive, "No spam or red flag patterns detected", 0⟩
  -- Clamp score
  let score := clampScore sd.1
  { score := score, grade := getGrade score, label := "Red Flag Risk",
    description := "Risk of triggering block, mute, or report actions",
    color := getColor score, details := sd.2 }

/-- Scorer `calculateDwellTimeScore` from the dwell-time scoring file. -/
def calculateDwellTimeScore (f : TextFeatures) : ScoreResult :=
  let sd : ℤ × List ScoreDetail := (50, [])
  let charCount := f.textLength
  -- 1. Optimal length analysis (sweet spot: 100-280 characters)
  let extBoost : ℤ := if 500 < charCount then 5 else 10
  let sd := step3 (100 ≤ charCount ∧ charCount ≤ 280) (charCount < 50) (280 < charCount) sd
    ⟨"Optimal Length", .positive,
      toString charCount ++ " characters is in the sweet spot (+15)", 15⟩
    ⟨"Too Short", .negative,
      toString charCount ++ " characters may not hold attention (-15)", -15⟩
    ⟨"Extended Content", .positive,
      "Long-form content gets more dwell time (+" ++ toString extBoost ++ ")", extBoost⟩
  -- 2. Line breaks improve readability and dwell
  let lineBoost : ℤ := min ((f.lineCount : ℤ) * 3) 12
  let sd := step (1 < f.lineCount) sd
    ⟨"Line Breaks", .positive,
      toString f.lineCount ++ " lines improve readability (+" ++ toString lineBoost ++ ")",
      lineBoost⟩
  -- 3. Hook analysis (first line strength)
  let sd := step (f.hasHookPattern = true ∧ 10 < f.firstLineLength) sd
    ⟨"Strong Hook", .positive, "Opening line captures attention (+10)", 10⟩
  -- 4. Readability (average word length)
  let avgWordLength : ℚ := (charCount : ℚ) / ((max f.wordCount 1 : ℕ) : ℚ)
  let sd := step2 (4 ≤ avgWordLength ∧ avgWordLength ≤ 6) (8 < avgWordLength) sd
    ⟨"Good Readability", .positive, "Easy to read vocabulary (+8)", 8⟩
    ⟨"Complex Words", .negative, "Complex vocabulary may reduce dwell (-5)", -5⟩
  -- 5. Curiosity gap / cliffhangers
  let sd := step (f.hasCuriosityGap = true) sd
    ⟨"Curiosity Gap", .positive, "Creates anticipation for more (+8)", 8⟩
  -- 6. Emojis in moderation improve scanning
  let sd := step (1 ≤ f.emojiCount ∧ f.emojiCount ≤ 3) sd
    ⟨"Strategic Emojis", .positive,
      toString f.emojiCount ++ " emoji(s) add visual interest (+5)", 5⟩
  -- 7. Quote or data points
  let sd := step (f.hasQuote = true ∨ f.hasStats = true) sd
    ⟨"Data/Quotes", .positive, "Concrete data increases credibility (+7)", 7⟩
  -- Clamp score
  let score := clampScore sd.1
  { score := score, grade := getGrade score, label := "Dwell Time",
    description := "How long users will spend reading your post",
    color := getColor score, details := sd.2 }

/-- Scorer `calculateFilterRiskScore` from the filter-risk scoring file. -/
def calculateFilterRiskScore (f : TextFeatures) : ScoreResult :=
  let sd : ℤ × List ScoreDetail := (100, [])
  -- 1. Commonly muted keyword patterns
  let mutedPenalty : ℤ := min ((f.mutedKeywordMatches : ℤ) * 10) 30
  let sd := step (0 < f.mutedKeywordMatches) sd
    ⟨"Commonly Muted Terms", .negative,
      "Contains " ++ toString f.mutedKeywordMatches ++
        " term(s) users often mute (-" ++ toString mutedPenalty ++ ")", -mutedPenalty⟩
  -- 2. Excessive hashtags (filter trigger)
  let sd := step (10 < f.hashtagCount) sd
    ⟨"Hashtag Spam", .negative,
      toString f.hashtagCount ++ " hashtags may trigger spam filters (-25)", -25⟩
  -- 3. Link shorteners (often filtered)
  let sd := step (f.hasLinkShortener = true) sd
    ⟨"Link Shorteners", .negative,
      "Shortened links may be flagged as suspicious (-15)", -15⟩
  -- 4. Duplicate content indicators
  let sd := step (f.hasDuplicateIndicators = true) sd
    ⟨"Duplicate Risk", .negative, "Content may be flagged as duplicate (-10)", -10⟩
  -- 5. Potential VF (Visibility Filtering) triggers
  let vfPenalty : ℤ := (f.vfTriggerCount : ℤ) * 20
  let sd := step (0 < f.vfTriggerCount) sd
    ⟨"Content Warning", .negative,
      "Contains " ++ toString f.vfTriggerCount ++
        " term(s) that may trigger visibility restrictions (-" ++
        toString vfPenalty ++ ")", -vfPenalty⟩
  -- 6. Pure promotional content
  let sd := step (2 < f.promoCount) sd
    ⟨"Heavy Promotion", .negative,
      "Overly promotional content gets reduced reach (-15)", -15⟩
  -- 7. External platform mentions
  let sd := step (1 < f.platformMentionCount) sd
    ⟨"External Platforms", .negative,
      "Multiple external platform mentions may reduce reach (-10)", -10⟩
  -- Positive: Clean content
  let sd := step (sd.2 = []) sd
    ⟨"Low Filter Risk", .positive, "No common filter triggers detected", 0⟩
  -- Clamp score
  let score := clampScore sd.1
  { score := score, grade := getGrade score, label := "Filter Risk",
    description := "Risk of being filtered or having reduced visibility",
    color := getColor score, details := sd.2 }

/-- Constant `DECAY_FACTOR = 0.5` from the author-diversity scoring file. -/
def DECAY_FACTOR : ℚ := 0.5

/-- Constant `FLOOR = 0.1` from the author-diversity scoring file. -/
def FLOOR : ℚ := 0.1

/-- Expression `(1 - FLOOR) * Math.pow(DECAY_FACTOR, postsIn24Hours) + FLOOR`
of the author-diversity scorer. -/
def diversityMultiplier (postsIn24Hours : Nat) : ℚ :=
  (1 - FLOOR) * DECAY_FACTOR ^ postsIn24Hours + FLOOR

/-- Expression `Math.round((1 - multiplier) * 50)` of the
author-diversity scorer. -/
def diversityPenalty (postsIn24Hours : Nat) : ℤ :=
  jsRound ((1 - diversityMultiplier postsIn24Hours) * 50)

/-- Scorer `calculateAuthorDiversityScore` from the author-diversity
scoring file. -/
def calculateAuthorDiversityScore (recentPostCount : Nat := 0)
    (hoursSinceLastPost : ℚ := 24) : ScoreResult :=
  let sd : ℤ × List ScoreDetail := (100, [])
  let postsIn24Hours := recentPostCount
  let sd :=
    if postsIn24Hours = 0 then
      applyDetail sd
        ⟨"First Post", .positive, "No recent posts - maximum visibility (+0)", 0⟩
    else
      -- Apply exponential decay formula from X algorithm
      let multiplier := diversityMultiplier postsIn24Hours
      let penalty := diversityPenalty postsIn24Hours
      if postsIn24Hours ≤ 3 then
        applyDetail sd
          ⟨"Moderate Posting", .neutral,
            toString postsIn24Hours ++ " recent post(s) - " ++
              toString (jsRound (multiplier * 100)) ++ "% visibility (-" ++
              toString penalty ++ ")", -penalty⟩
      else if postsIn24Hours ≤ 6 then
        applyDetail sd
          ⟨"Frequent Posting", .negative,
            toString postsIn24Hours ++
              " recent posts significantly reduces reach (-" ++
              toString penalty ++ ")", -penalty⟩
      else
        applyDetail sd
          ⟨"Over-Posting", .negative,
            toString postsIn24Hours ++ " posts in 24h - severe diversity penalty (-" ++
              toString penalty ++ ")", -penalty⟩
  -- Time since last post bonus
  let spacingBoost : ℤ := min (jsRound (hoursSinceLastPost / 2)) 10
  let sd := step3 (4 ≤ hoursSinceLastPost ∧ hoursSinceLastPost < 24)
      (24 ≤ hoursSinceLastPost) (hoursSinceLastPost < 1) sd
    ⟨"Post Spacing", .positive,
      toString hoursSinceLastPost ++ "h since last post - good spacing (+" ++
        toString spacingBoost ++ ")", spacingBoost⟩
    ⟨"Fresh Return", .positive, "24h+ break resets diversity penalty (+15)", 15⟩
    ⟨"Rapid Posting", .negative, "Posting within 1 hour of last post (-10)", -10⟩
  -- Optimal posting cadence recommendation
  let sd := step (10 < postsIn24Hours) sd
    ⟨"Recommendation", .neutral,
      "Consider spacing posts 3-4 hours apart for better reach", 0⟩
  -- Clamp score
  let score := clampScore sd.1
  { score := score, grade := getGrade score, label := "Author Diversity",
    description := "Impact of your posting frequency on visibility",
    color := getColor score, details := sd.2 }

/-- Scorer `calculateReachScore` from `redFlagScore.ts` (the reach
section of that file). -/
def calculateReachScore (f : TextFeatures) (followerCount : Nat := 1000) :
    ScoreResult :=
  let details : List ScoreDetail := []
  let inNetworkScore : ℤ := 50
  let outOfNetworkScore : ℤ := 50
  -- === IN-NETWORK FACTORS ===
  -- 1. Recency is key for in-network (always max for new posts)
  let inNetworkScore := inNetworkScore + 15
  let details := details ++
    [⟨"Recency Boost", .positive,
      "New posts get priority in follower feeds (+15 in-network)", 15⟩]
  -- 2. Replies to followers (conversation context)
  let hasMentions := 0 < f.mentionCount
  let inNetworkScore := if hasMentions then inNetworkScore + 10 else inNetworkScore
  let details := if hasMentions then details ++
    [⟨"Conversation", .positive, "Mentions boost in-network visibility (+10)", 10⟩]
    else details
  -- === OUT-OF-NETWORK FACTORS ===
  -- 1. Topic relevance (broader appeal)
  let topicBoost : ℤ := min ((f.topicMatchCount : ℤ) * 10) 25
  let outOfNetworkScore := if 0 < f.topicMatchCount then outOfNetworkScore + topicBoost
    else outOfNetworkScore
  let details := if 0 < f.topicMatchCount then details ++
    [⟨"Trending Topics", .positive,
      toString f.topicMatchCount ++ " popular topic(s) increase discovery (+" ++
        toString topicBoost ++ " OON)", topicBoost⟩]
    else details
  -- 2. Hashtags help discovery (moderate use)
  let outOfNetworkScore := if 1 ≤ f.hashtagCount ∧ f.hashtagCount ≤ 3 then
      outOfNetworkScore + 10
    else outOfNetworkScore
  let details := if 1 ≤ f.hashtagCount ∧ f.hashtagCount ≤ 3 then details ++
    [⟨"Strategic Hashtags", .positive,
      toString f.hashtagCount ++ " hashtag(s) help discovery (+10 OON)", 10⟩]
    else details
  -- 3. Engaging content format (more likely to be retrieved)
  let formatBonus : ℤ := (f.formatMatchCount : ℤ) * 5
  let outOfNetworkScore := if 0 < formatBonus then outOfNetworkScore + formatBonus
    else outOfNetworkScore
  let details := if 0 < formatBonus then details ++
    [⟨"Engaging Format", .positive,
      "Content format increases retrieval likelihood (+" ++
        toString formatBonus ++ " OON)", formatBonus⟩]
    else details
  -- 5. Follower count affects OON retrieval
  let outOfNetworkScore := if 10000 < followerCount then outOfNetworkScore + 15
    else if 1000 < followerCount then outOfNetworkScore + 8
    else outOfNetworkScore
  let details := if 10000 < followerCount then details ++
    [⟨"Authority Signal", .positive,
      "Large following increases OON retrieval (+15)", 15⟩]
    else if 1000 < followerCount then details ++
    [⟨"Growing Authority", .positive,
      "Established following helps discovery (+8)", 8⟩]
    else details
  -- 6. Personal/niche content stays more in-network
  let outOfNetworkScore := if 3 < f.personalPhraseCount then outOfNetworkScore + (-10)
    else outOfNetworkScore
  let inNetworkScore := if 3 < f.personalPhraseCount then inNetworkScore + 5
    else inNetworkScore
  let details := if 3 < f.personalPhraseCount then details ++
    [⟨"Personal Content", .neutral,
      "Personal posts favor in-network over discovery (+5 IN, -10 OON)", 0⟩]
    else details
  -- Calculate combined score (weighted average); clamp both sub-scores first
  let inNetworkScore := clampScore inNetworkScore
  let outOfNetworkScore := clampScore outOfNetworkScore
  let combinedScore := jsRound ((inNetworkScore : ℚ) * 0.4 + (outOfNetworkScore : ℚ) * 0.6)
  -- Add summary detail (unshift)
  let details :=
    ⟨"Reach Summary", .neutral,
      "In-Network: " ++ toString inNetworkScore ++ "% | Out-of-Network: " ++
        toString outOfNetworkScore ++ "%", 0⟩ :: details
  { score := combinedScore, grade := getGrade combinedScore,
    label := "Reach Potential",
    description := "Estimated visibility to followers vs new audiences",
    color := getColor combinedScore, details := details }

/-- Values of the `type` field of a suggestion. -/
inductive SuggestionType
  | improvement
  | warning
  | tip
deriving DecidableEq

/-- Values of the `priority` field of a suggestion. -/
inductive Priority
  | high
  | medium
  | low
deriving DecidableEq

/-- Record `Suggestion` from `src/types`. -/
structure Suggestion where
  type : SuggestionType
  category : String
  text : String
  priority : Priority
deriving DecidableEq

/-- Mapping `priorityOrder = { high: 0, medium: 1, low: 2 }` used by the
final sort of the suggestion generator. -/
def priorityOrder : Priority → Nat
  | .high => 0
  | .medium => 1
  | .low => 2

/-- Comparator relation of the final sort:
`priorityOrder[a.priority] - priorityOrder[b.priority] <= 0`. -/
def suggLE (a b : Suggestion) : Prop :=
  priorityOrder a.priority ≤ priorityOrder b.priority

instance : DecidableRel suggLE :=
  fun a b => Nat.decLe (priorityOrder a.priority) (priorityOrder b.priority)

instance : IsTotal Suggestion suggLE :=
  ⟨fun a b => Nat.le_total (priorityOrder a.priority) (priorityOrder b.priority)⟩

instance : IsTrans Suggestion suggLE :=
  ⟨fun _ _ _ h1 h2 => Nat.le_trans h1 h2⟩

/-- First suggestion of the link-only short-circuit. -/
def onlyLinkSuggestion1 : Suggestion :=
  ⟨.warning, "⛔ Critical Issue",
    "This is just a link with no context. X heavily demotes link-only posts. Add commentary, opinion, or value.",
    .high⟩

/-- Second suggestion of the link-only short-circuit. -/
def onlyLinkSuggestion2 : Suggestion :=
  ⟨.improvement, "Algorithm Tip",
    "The algorithm weights replies at 13.5x - add a question or hot take to spark discussion",
    .high⟩

/-- Third suggestion of the link-only short-circuit. -/
def onlyLinkSuggestion3 : Suggestion :=
  ⟨.improvement, "Reach",
    "External links reduce reach by ~80%. Consider: screenshot + context, or quote the key point",
    .high⟩

/-- Warning pushed when the post is mostly a link. -/
def mostlyLinkSuggestion : Suggestion :=
  ⟨.warning, "⚠️ Low Value",
    "Post is mostly a link with minimal context. Add your take, a question, or key insight from the content.",
    .high⟩

/-- Suggestion pushed when no question mark is present. -/
def noQuestionSuggestion : Suggestion :=
  ⟨.improvement, "Engagement (13.5x weight)",
    "No question detected. Questions drive replies - the highest weighted signal in the algorithm.",
    .high⟩

/-- Warning pushed for short non-URL content (embeds the character count). -/
def tooShortSuggestion (n : Nat) : Suggestion :=
  ⟨.warning, "Content Length",
    "Only " ++ toString n ++ " chars of actual content. Aim for 100-280 for optimal dwell time.",
    .high⟩

/-- Warning pushed when any URL is present. -/
def externalLinkSuggestion : Suggestion :=
  ⟨.warning, "External Link Detected",
    "Links to external sites reduce reach. X wants users to stay on platform. Add substantial native content.",
    .medium⟩

/-- Tip pushed when neither opinion nor engagement hook is present. -/
def personalitySuggestion : Suggestion :=
  ⟨.tip, "Personality",
    "Add your opinion or perspective. Personal takes outperform neutral sharing.",
    .medium⟩

/-- Warning pushed for excessive caps. -/
def formattingSuggestion : Suggestion :=
  ⟨.warning, "Formatting",
    "Too many caps looks spammy. The algorithm may flag this.",
    .high⟩

/-- Warning pushed for too many hashtags (embeds the count). -/
def hashtagsSuggestion (n : Nat) : Suggestion :=
  ⟨.warning, "Hashtags",
    toString n ++ " hashtags is too many. 1-3 is optimal. More looks spammy.",
    .high⟩

/-- Warning pushed when the author-diversity score is below 60. -/
def postingFrequencySuggestion : Suggestion :=
  ⟨.warning, "Posting Frequency",
    "You\x27ve posted recently. AuthorDiversityDropper limits same-author posts. Wait 3-4 hours.",
    .high⟩

/-- Warning pushed when muted terms are found (embeds the found terms). -/
def mutedTermsSuggestion (found : List String) : Suggestion :=
  ⟨.warning, "Muted Terms",
    "Contains commonly muted terms: " ++ String.intercalate ", " found ++
      ". Many users filter these.",
    .high⟩

/-- Positive tip for strong posts. -/
def strongPostSuggestion : Suggestion :=
  ⟨.tip, "✓ Strong Post",
    "Good structure: has a question, substantial content, and engagement hooks.",
    .low⟩

/-- Generic optimization tip about adding a question. -/
def optimizationQuestionSuggestion : Suggestion :=
  ⟨.tip, "Optimization",
    "Consider adding a question to maximize the 13.5x reply weight.",
    .medium⟩

/-- Generic optimization tip about adding a call-to-action. -/
def optimizationCtaSuggestion : Suggestion :=
  ⟨.tip, "Optimization",
    "Add a call-to-action like \"thoughts?\" or \"what do you think?\" to boost engagement.",
    .medium⟩

/-- Failsafe low-priority encouragement tip. -/
def goodStartSuggestion : Suggestion :=
  ⟨.tip, "Good Start",
    "Solid foundation. Consider adding a question or controversial take to maximize algorithm score.",
    .low⟩

/-- Accumulated suggestions of the independent checks of
`generateSuggestions` that run after the link-only short-circuit and
before the `suggestions.length === 0` fallbacks, in source order. -/
def checksSuggestions (f : TextFeatures) (authorDiversity filterRisk : ScoreResult) :
    List Suggestion :=
  let isMostlyLink := 0 < f.urlCount ∧ f.strippedLength < 50
  let capsFrac : ℚ := (f.capsCount : ℚ) / ((max f.nonSpaceLength 1 : ℕ) : ℚ)
  (if isMostlyLink then [mostlyLinkSuggestion] else []) ++
  (if ¬ (0 < f.questionCount) then [noQuestionSuggestion] else []) ++
  (if f.strippedLength < 50 ∧ 0 < f.strippedLength then
    [tooShortSuggestion f.strippedLength] else []) ++
  (if 0 < f.urlCount then [externalLinkSuggestion] else []) ++
  (if f.hasOpinion = false ∧ f.hasEngagementHook = false ∧ 20 < f.strippedLength then
    [personalitySuggestion] else []) ++
  (if 1/2 < capsFrac ∧ 20 < f.textLength then [formattingSuggestion] else []) ++
  (if 3 < f.hashtagCount then [hashtagsSuggestion f.hashtagCount] else []) ++
  (if authorDiversity.score < 60 then [postingFrequencySuggestion] else []) ++
  (if filterRisk.score < 70 ∧ f.foundMutedTerms ≠ [] then
    [mutedTermsSuggestion f.foundMutedTerms] else [])

/-- Suggestions of the two `suggestions.length === 0` fallback branches
(strong-post tip, or up to two generic optimization tips). -/
def qualitySuggestions (f : TextFeatures) (engagement dwellTime reach : ScoreResult)
    (checks : List Suggestion) : List Suggestion :=
  let overallQuality := engagement.score + dwellTime.score + reach.score
  if checks = [] ∧ 180 < overallQuality ∧ 0 < f.questionCount ∧ 100 ≤ f.strippedLength then
    [strongPostSuggestion]
  else if checks = [] then
    (if ¬ (0 < f.questionCount) then [optimizationQuestionSuggestion] else []) ++
    (if f.hasEngagementHook = false then [optimizationCtaSuggestion] else [])
  else []

/-- Full suggestion list of the non-link-only path of
`generateSuggestions`, in generation order (before the final sort). -/
def mainSuggestions (f : TextFeatures)
    (engagement dwellTime authorDiversity filterRisk reach : ScoreResult) :
    List Suggestion :=
  let checks := checksSuggestions f authorDiversity filterRisk
  let quality := qualitySuggestions f engagement dwellTime reach checks
  let failsafe := if checks ++ quality = [] then [goodStartSuggestion] else []
  checks ++ quality ++ failsafe

/-- Function `generateSuggestions` from `src/lib/scoring/index.ts`.  The
link-only branch returns its three suggestions without sorting (early
`return`); every other path ends in the stable sort by priority
(JavaScript `Array.prototype.sort` is stable). -/
def generateSuggestions (f : TextFeatures)
    (engagement redFlags dwellTime authorDiversity filterRisk reach : ScoreResult) :
    List Suggestion :=
  let isOnlyLink := 0 < f.urlCount ∧ f.strippedLength < 10
  if isOnlyLink then [onlyLinkSuggestion1, onlyLinkSuggestion2, onlyLinkSuggestion3]
  else
    (mainSuggestions f engagement dwellTime authorDiversity filterRisk reach).insertionSort
      suggLE

/-- Record `AnalysisOptions`, with the defaults `analyzePost` destructures. -/
structure AnalysisOptions where
  recentPostCount : Nat := 0
  hoursSinceLastPost : ℚ := 24
  followerCount : Nat := 1000
deriving DecidableEq

/-- Record `AnalysisResult` from `src/types`. -/
structure AnalysisResult where
  overallScore : ℤ
  overallGrade : Grade
  engagement : ScoreResult
  redFlags : ScoreResult
  dwellTime : ScoreResult
  authorDiversity : ScoreResult
  filterRisk : ScoreResult
  reach : ScoreResult
  suggestions : List Suggestion
deriving DecidableEq

/-- Fields of the `weights` object of `analyzePost`. -/
structure ScoringWeights where
  engagement : ℚ
  redFlags : ℚ
  dwellTime : ℚ
  authorDiversity : ℚ
  filterRisk : ℚ
  reach : ℚ

/-- Constant `weights` object of `analyzePost`. -/
def weights : ScoringWeights :=
  { engagement := 0.25, redFlags := 0.20, dwellTime := 0.15,
    authorDiversity := 0.15, filterRisk := 0.10, reach := 0.15 }

/-- Function `analyzePost` from `src/lib/scoring/index.ts`. -/
def analyzePost (f : TextFeatures) (options : AnalysisOptions := {}) :
    AnalysisResult :=
  let recentPostCount := options.recentPostCount
  let hoursSinceLastPost := options.hoursSinceLastPost
  let followerCount := options.followerCount
  -- Calculate all scores
  let engagement := calculateEngagementScore f
  let redFlags := calculateRedFlagScore f
  let dwellTime := calculateDwellTimeScore f
  let authorDiversity := calculateAuthorDiversityScore recentPostCount hoursSinceLastPost
  let filterRisk := calculateFilterRiskScore f
  let reach := calculateReachScore f followerCount
  -- Calculate overall score (weighted average)
  let overallScore := jsRound (
    (engagement.score : ℚ) * weights.engagement +
    (redFlags.score : ℚ) * weights.redFlags +
    (dwellTime.score : ℚ) * weights.dwellTime +
    (authorDiversity.score : ℚ) * weights.authorDiversity +
    (filterRisk.score : ℚ) * weights.filterRisk +
    (reach.score : ℚ) * weights.reach)
  -- Generate suggestions
  let suggestions :=
    generateSuggestions f engagement redFlags dwellTime authorDiversity filterRisk reach
  { overallScore := overallScore, overallGrade := getGrade overallScore,
    engagement := engagement, redFlags := redFlags, dwellTime := dwellTime,
    authorDiversity := authorDiversity, filterRisk := filterRisk, reach := reach,
    suggestions := suggestions }

/-- Accumulated value of the local `inNetworkScore` of
`calculateReachScore` just before the final clamp (base 50, recency +15,
mentions +10, personal-content +5), extracted as a standalone
definition. -/
def reachInNetworkScore (f : TextFeatures) : ℤ :=
  let s : ℤ := 50
  let s := s + 15
  let s := if 0 < f.mentionCount then s + 10 else s
  let s := if 3 < f.personalPhraseCount then s + 5 else s
  s

/-- Accumulated value of the local `outOfNetworkScore` of
`calculateReachScore` just before the final clamp, extracted as a
standalone definition. -/
def reachOutOfNetworkScore (f : TextFeatures) (followerCount : Nat) : ℤ :=
  let s : ℤ := 50
  let s := if 0 < f.topicMatchCount then s + min ((f.topicMatchCount : ℤ) * 10) 25 else s
  let s := if 1 ≤ f.hashtagCount ∧ f.hashtagCount ≤ 3 then s + 10 else s
  let s := if 0 < (f.formatMatchCount : ℤ) * 5 then s + (f.formatMatchCount : ℤ) * 5 else s
  let s := if 10000 < followerCount then s + 15
    else if 1000 < followerCount then s + 8
    else s
  let s := if 3 < f.personalPhraseCount then s + (-10) else s
  s

/-- Suggestion list of `generateSuggestions` in generation order, i.e.
before the final sort (the link-only branch is returned as generated). -/
def generatedSuggestions (f : TextFeatures)
    (engagement dwellTime authorDiversity filterRisk reach : ScoreResult) :
    List Suggestion :=
  if 0 < f.urlCount ∧ f.strippedLength < 10 then
    [onlyLinkSuggestion1, onlyLinkSuggestion2, onlyLinkSuggestion3]
  else mainSuggestions f engagement dwellTime authorDiversity filterRisk reach

/-- Feature record of the text `"https://x.com/a/status/1"`: one URL,
no non-URL content after stripping and trimming. -/
def linkOnlyExample : TextFeatures :=
  { urlCount := 1, strippedLength := 0, textLength := 24,
    nonSpaceLength := 24, wordCount := 1, firstLineLength := 24 }

/-- Feature record of a text that triggers no suggestion branch (it has
a question mark and an engagement hook and no other features), used to
exercise the failsafe branch. -/
def failsafeExample : TextFeatures :=
  { questionCount := 1, hasEngagementHook := true }

theorem sumWeights_append (l : List ScoreDetail) (d : ScoreDetail) :
    sumWeights (l ++ [d]) = sumWeights l + d.weight := by
  simp [sumWeights]

theorem applyDetail_inv {sd : ℤ × List ScoreDetail} {base : ℤ}
    (h : sd.1 = base + sumWeights sd.2) (d : ScoreDetail) :
    (applyDetail sd d).1 = base + sumWeights (applyDetail sd d).2 := by
  simp [applyDetail, sumWeights_append, h, add_assoc]

theorem step_inv (c : Prop) [Decidable c]
    {sd : ℤ × List ScoreDetail} {base : ℤ}
    (h : sd.1 = base + sumWeights sd.2) (d : ScoreDetail) :
    (step c sd d).1 = base + sumWeights (step c sd d).2 := by
  unfold step
  split
  · exact applyDetail_inv h d
  · exact h

theorem step2_inv (c₁ c₂ : Prop) [Decidable c₁] [Decidable c₂]
    {sd : ℤ × List ScoreDetail} {base : ℤ}
    (h : sd.1 = base + sumWeights sd.2) (d₁ d₂ : ScoreDetail) :
    (step2 c₁ c₂ sd d₁ d₂).1 = base + sumWeights (step2 c₁ c₂ sd d₁ d₂).2 := by
  unfold step2
  split
  · exact applyDetail_inv h d₁
  · split
    · exact applyDetail_inv h d₂
    · exact h

theorem step3_inv (c₁ c₂ c₃ : Prop) [Decidable c₁] [Decidable c₂] [Decidable c₃]
    {sd : ℤ × List ScoreDetail} {base : ℤ}
    (h : sd.1 = base + sumWeights sd.2) (d₁ d₂ d₃ : ScoreDetail) :
    (step3 c₁ c₂ c₃ sd d₁ d₂ d₃).1 =
      base + sumWeights (step3 c₁ c₂ c₃ sd d₁ d₂ d₃).2 := by
  unfold step3
  split
  · exact applyDetail_inv h d₁
  · split
    · exact applyDetail_inv h d₂
    · split
      · exact applyDetail_inv h d₃
      · exact h

theorem clampScore_nonneg (x : ℤ) : 0 ≤ clampScore x := le_max_left 0 _

theorem clampScore_le (x : ℤ) : clampScore x ≤ 100 := by
  unfold clampScore
  omega

theorem jsRound_eq_floor (q : ℚ) : jsRound q = ⌊q + 1/2⌋ := by
  rw [jsRound, Rat.floor_def', Rat.floor_def]

theorem jsRound_le_of_le {q : ℚ} {n : ℤ} (h : q ≤ (n : ℚ)) : jsRound q ≤ n := by
  rw [jsRound_eq_floor]
  have := Int.floor_lt.mpr (by push_cast; linarith : q + 1/2 < ((n + 1 : ℤ) : ℚ))
  omega

theorem le_jsRound_of_le {q : ℚ} {n : ℤ} (h : (n : ℚ) ≤ q) : n ≤ jsRound q := by
  rw [jsRound_eq_floor]
  exact Int.le_floor.mpr (by linarith)

theorem engagement_score_eq (f : TextFeatures) :
    (calculateEngagementScore f).score =
      clampScore (50 + sumWeights (calculateEngagementScore f).details) := by
  simp only [calculateEngagementScore]
  exact congrArg clampScore
    (step_inv _ (step_inv _ (step_inv _ (step2_inv _ _
      (step_inv _ (step_inv _ (step_inv _ (by simp [sumWeights]) _) _) _) _ _) _) _) _)

theorem redFlag_score_eq (f : TextFeatures) :
    (calculateRedFlagScore f).score =
      clampScore (100 + sumWeights (calculateRedFlagScore f).details) := by
  simp only [calculateRedFlagScore]
  exact congrArg clampScore
    (step_inv _ (step_inv _ (step_inv _ (step_inv _ (step_inv _ (step_inv _
      (step_inv _ (step2_inv _ _ (step_inv _ (by simp [sumWeights]) _) _ _) _) _) _) _) _) _) _)

theorem dwellTime_score_eq (f : TextFeatures) :
    (calculateDwellTimeScore f).score =
      clampScore (50 + sumWeights (calculateDwellTimeScore f).details) := by
  simp only [calculateDwellTimeScore]
  exact congrArg clampScore
    (step_inv _ (step_inv _ (step_inv _ (step2_inv _ _ (step_inv _ (step_inv _
      (step3_inv _ _ _ (by simp [sumWeights]) _ _ _) _) _) _ _) _) _) _)

theorem filterRisk_score_eq (f : TextFeatures) :
    (calculateFilterRiskScore f).score =
      clampScore (100 + sumWeights (calculateFilterRiskScore f).details) := by
  simp only [calculateFilterRiskScore]
  exact congrArg clampScore
    (step_inv _ (step_inv _ (step_inv _ (step_inv _ (step_inv _ (step_inv _
      (step_inv _ (step_inv _ (by simp [sumWeights]) _) _) _) _) _) _) _) _)

theorem authorDiversity_score_eq (recentPostCount : Nat) (hoursSinceLastPost : ℚ) :
    (calculateAuthorDiversityScore recentPostCount hoursSinceLastPost).score =
      clampScore (100 +
        sumWeights (calculateAuthorDiversityScore recentPostCount hoursSinceLastPost).details) := by
  simp only [calculateAuthorDiversityScore]
  refine congrArg clampScore (step_inv _ (step3_inv _ _ _ ?_ _ _ _) _)
  split
  · exact applyDetail_inv (by simp [sumWeights]) _
  · split
    · exact applyDetail_inv (by simp [sumWeights]) _
    · split
      · exact applyDetail_inv (by simp [sumWeights]) _
      · exact applyDetail_inv (by simp [sumWeights]) _

theorem jsRound_mix_nonneg (a b : ℤ) (ha : 0 ≤ a) (hb : 0 ≤ b) :
    0 ≤ jsRound ((a : ℚ) * 0.4 + (b : ℚ) * 0.6) := by
  apply le_jsRound_of_le
  have ha' : (0 : ℚ) ≤ (a : ℚ) := by exact_mod_cast ha
  have hb' : (0 : ℚ) ≤ (b : ℚ) := by exact_mod_cast hb
  push_cast
  linarith

theorem jsRound_mix_le (a b : ℤ) (ha : a ≤ 100) (hb : b ≤ 100) :
    jsRound ((a : ℚ) * 0.4 + (b : ℚ) * 0.6) ≤ 100 := by
  apply jsRound_le_of_le
  have ha' : (a : ℚ) ≤ 100 := by exact_mod_cast ha
  have hb' : (b : ℚ) ≤ 100 := by exact_mod_cast hb
  push_cast
  linarith

/-- C8: the shared grade mapping is total and monotonic: every integer
score in `[0,100]` maps to exactly one grade — A iff `score ≥ 85`, B iff
`70 ≤ score < 85`, C iff `55 ≤ score < 70`, D iff `40 ≤ score < 55`, F
otherwise — and for `s ≤ t` the grade of `s` is never strictly better
than the grade of `t`. -/
theorem grade_mapping_total_and_monotone :
    (∀ s : ℤ, 0 ≤ s → s ≤ 100 →
      ((getGrade s = Grade.A ↔ 85 ≤ s) ∧
       (getGrade s = Grade.B ↔ 70 ≤ s ∧ s < 85) ∧
       (getGrade s = Grade.C ↔ 55 ≤ s ∧ s < 70) ∧
       (getGrade s = Grade.D ↔ 40 ≤ s ∧ s < 55) ∧
       (getGrade s = Grade.F ↔ s < 40))) ∧
    (∀ s t : ℤ, s ≤ t → gradeRank (getGrade s) ≤ gradeRank (getGrade t)) := by
  constructor
  · intro s _ _
    unfold getGrade
    split_ifs <;> refine ⟨?_, ?_, ?_, ?_, ?_⟩ <;> simp <;> omega
  · intro s t hst
    unfold getGrade
    split_ifs <;> simp [gradeRank] <;> omega

theorem grade_mapping_total_and_monotone_witness :
    ((getGrade 90 = Grade.A ↔ 85 ≤ (90 : ℤ)) ∧
     (getGrade 90 = Grade.B ↔ 70 ≤ (90 : ℤ) ∧ (90 : ℤ) < 85) ∧
     (getGrade 90 = Grade.C ↔ 55 ≤ (90 : ℤ) ∧ (90 : ℤ) < 70) ∧
     (getGrade 90 = Grade.D ↔ 40 ≤ (90 : ℤ) ∧ (90 : ℤ) < 55) ∧
     (getGrade 90 = Grade.F ↔ (90 : ℤ) < 40)) ∧
    gradeRank (getGrade 10) ≤ gradeRank (getGrade 90) :=
  ⟨grade_mapping_total_and_monotone.1 90 (by decide) (by decide),
   grade_mapping_total_and_monotone.2 10 90 (by decide)⟩

/-- C1: for every text (feature record) and options value, `analyzePost`
returns `overallScore = round(Σ dimension.score × weight)` with the six
fixed weights, the weights sum to exactly 1, and `overallGrade` is the
shared threshold mapping applied to `overallScore`. -/
theorem analyzePost_overallScore_eq (f : TextFeatures) (options : AnalysisOptions) :
    (analyzePost f options).overallScore =
      jsRound (((calculateEngagementScore f).score : ℚ) * weights.engagement +
        ((calculateRedFlagScore f).score : ℚ) * weights.redFlags +
        ((calculateDwellTimeScore f).score : ℚ) * weights.dwellTime +
        ((calculateAuthorDiversityScore options.recentPostCount
            options.hoursSinceLastPost).score : ℚ) * weights.authorDiversity +
        ((calculateFilterRiskScore f).score : ℚ) * weights.filterRisk +
        ((calculateReachScore f options.followerCount).score : ℚ) * weights.reach) ∧
    weights.engagement + weights.redFlags + weights.dwellTime +
      weights.authorDiversity + weights.filterRisk + weights.reach = 1 ∧
    (analyzePost f options).overallGrade =
      getGrade ((analyzePost f options).overallScore) :=
  ⟨rfl, by norm_num [weights], rfl⟩

/-- C2: for every text (feature record) and context, each of the six
scorers returns a score in `[0, 100]` (scores are integers by the `ℤ`
codomain of the embedding, mirroring the integer arithmetic of the
source). -/
theorem scorer_scores_in_range (f : TextFeatures) (recentPostCount : Nat)
    (hoursSinceLastPost : ℚ) (followerCount : Nat) :
    (0 ≤ (calculateEngagementScore f).score ∧
      (calculateEngagementScore f).score ≤ 100) ∧
    (0 ≤ (calculateRedFlagScore f).score ∧
      (calculateRedFlagScore f).score ≤ 100) ∧
    (0 ≤ (calculateDwellTimeScore f).score ∧
      (calculateDwellTimeScore f).score ≤ 100) ∧
    (0 ≤ (calculateAuthorDiversityScore recentPostCount hoursSinceLastPost).score ∧
      (calculateAuthorDiversityScore recentPostCount hoursSinceLastPost).score ≤ 100) ∧
    (0 ≤ (calculateFilterRiskScore f).score ∧
      (calculateFilterRiskScore f).score ≤ 100) ∧
    (0 ≤ (calculateReachScore f followerCount).score ∧
      (calculateReachScore f followerCount).score ≤ 100) := by
  refine ⟨⟨clampScore_nonneg _, clampScore_le _⟩,
    ⟨clampScore_nonneg _, clampScore_le _⟩,
    ⟨clampScore_nonneg _, clampScore_le _⟩,
    ⟨clampScore_nonneg _, clampScore_le _⟩,
    ⟨clampScore_nonneg _, clampScore_le _⟩,
    ?_, ?_⟩
  · exact jsRound_mix_nonneg _ _ (clampScore_nonneg _) (clampScore_nonneg _)
  · exact jsRound_mix_le _ _ (clampScore_le _) (clampScore_le _)

set_option maxHeartbeats 1000000 in
/-- C5: the author-diversity scorer applies no decay penalty when
`recentPostCount = 0` (its first detail is the informational positive
"First Post" detail of weight 0), and for `recentPostCount = 3` the
multiplier is exactly `0.2125`, the subtracted penalty is exactly `39`
(its first detail carries weight `-39` against the base of 100, and for
the default `hoursSinceLastPost = 24` the final score is
`100 - 39 + 15 = 76`). -/
theorem authorDiversity_decay_arithmetic :
    (∀ h : ℚ, (calculateAuthorDiversityScore 0 h).details.head? =
      some ⟨"First Post", Impact.positive,
        "No recent posts - maximum visibility (+0)", 0⟩) ∧
    diversityMultiplier 3 = 0.2125 ∧
    diversityPenalty 3 = 39 ∧
    (∀ h : ℚ, ((calculateAuthorDiversityScore 3 h).details.head?.map
      (fun d => d.weight)) = some (-39)) ∧
    (calculateAuthorDiversityScore 3 24).score = 100 - 39 + 15 := by
  have hpen : diversityPenalty 3 = 39 := by
    rw [diversityPenalty, jsRound_eq_floor]
    norm_num [diversityMultiplier, DECAY_FACTOR, FLOOR]
  refine ⟨?_, ?_, hpen, ?_, ?_⟩
  · intro h
    simp only [calculateAuthorDiversityScore, step, step3, applyDetail]
    split_ifs <;> rfl
  · norm_num [diversityMultiplier, DECAY_FACTOR, FLOOR]
  · intro h
    simp only [calculateAuthorDiversityScore, step, step3, applyDetail]
    split_ifs <;> first | contradiction | (rw [hpen]; rfl)
  · simp only [calculateAuthorDiversityScore, step, step3, applyDetail]
    split_ifs <;> first | contradiction | (rw [hpen]; rfl)

theorem le_jsRound_mix {a b : ℤ} (h : 260 ≤ 2 * a + 3 * b) :
    52 ≤ jsRound ((a : ℚ) * 0.4 + (b : ℚ) * 0.6) := by
  apply le_jsRound_of_le
  have h' : (260 : ℚ) ≤ 2 * (a : ℚ) + 3 * (b : ℚ) := by exact_mod_cast h
  push_cast
  linarith

/-- C10: for every text (feature record) and follower count, the reach
score is at least 52: the in-network sub-score always gets the
unconditional +15 recency boost (at least 65, and at least 70 when the
personal-content branch adds +5), the out-of-network sub-score is at
least 40 (base 50 minus at most the single -10 personal-content
penalty), and the rounded `0.4/0.6` combination of those bounds is at
least 52. -/
theorem reach_score_ge_52 (f : TextFeatures) (followerCount : Nat) :
    52 ≤ (calculateReachScore f followerCount).score := by
  simp only [calculateReachScore]
  apply le_jsRound_mix
  simp only [clampScore]
  split_ifs <;> omega

/-- C3 counterexample: for the feature record of the empty text with the
default follower count, the reach score is the rounded combination
`round(0.4·65 + 0.6·50) = 56`, which differs from
`clamp(base + Σ detail weights)` for base 50 (= 65) and also for
base 100 (= 100): the reach scorer's score is not the clamped sum of its
detail weights over any of its documented bases. -/
theorem reach_score_not_detail_sum :
    (calculateReachScore {} 1000).score ≠
      clampScore (50 + sumWeights (calculateReachScore {} 1000).details) ∧
    (calculateReachScore {} 1000).score ≠
      clampScore (100 + sumWeights (calculateReachScore {} 1000).details) := by
  have hin : clampScore (reachInNetworkScore ({} : TextFeatures)) = 65 := by decide
  have hout : clampScore (reachOutOfNetworkScore ({} : TextFeatures) 1000) = 50 := by
    decide
  have hscore : (calculateReachScore ({} : TextFeatures) 1000).score =
      jsRound ((clampScore (reachInNetworkScore ({} : TextFeatures)) : ℚ) * 0.4 +
        (clampScore (reachOutOfNetworkScore ({} : TextFeatures) 1000) : ℚ) * 0.6) := rfl
  have h56 : (calculateReachScore ({} : TextFeatures) 1000).score = 56 := by
    rw [hscore, hin, hout, jsRound_eq_floor]
    norm_num
  have hsum : sumWeights (calculateReachScore ({} : TextFeatures) 1000).details = 15 := by
    decide
  rw [h56, hsum]
  constructor <;> decide

/-- C3 (amended): five of the six scorers (all but reach) return
`score = clamp(base + Σ detail.weight)` with their documented bases
(engagement 50, red-flag 100, dwell-time 50, author-diversity 100,
filter-risk 100); the reach scorer instead returns the rounded weighted
combination `round(0.4·inNetwork + 0.6·outOfNetwork)` of its two
independently clamped sub-scores (each of base 50), and its details list
is not an additive decomposition of that score. -/
theorem scorer_score_decomposition (f : TextFeatures) (recentPostCount : Nat)
    (hoursSinceLastPost : ℚ) (followerCount : Nat) :
    (calculateEngagementScore f).score =
      clampScore (50 + sumWeights (calculateEngagementScore f).details) ∧
    (calculateRedFlagScore f).score =
      clampScore (100 + sumWeights (calculateRedFlagScore f).details) ∧
    (calculateDwellTimeScore f).score =
      clampScore (50 + sumWeights (calculateDwellTimeScore f).details) ∧
    (calculateAuthorDiversityScore recentPostCount hoursSinceLastPost).score =
      clampScore (100 + sumWeights
        (calculateAuthorDiversityScore recentPostCount hoursSinceLastPost).details) ∧
    (calculateFilterRiskScore f).score =
      clampScore (100 + sumWeights (calculateFilterRiskScore f).details) ∧
    (calculateReachScore f followerCount).score =
      jsRound ((clampScore (reachInNetworkScore f) : ℚ) * 0.4 +
        (clampScore (reachOutOfNetworkScore f followerCount) : ℚ) * 0.6) :=
  ⟨engagement_score_eq f, redFlag_score_eq f, dwellTime_score_eq f,
   authorDiversity_score_eq recentPostCount hoursSinceLastPost,
   filterRisk_score_eq f, rfl⟩

/-- C4: for every text (feature record) with at least one URL and under
10 characters of stripped non-URL content — such as
`"https://x.com/a/status/1"` — and for arbitrary scorer results, the
suggestion generator returns exactly the three link-only suggestions,
all of priority high (the branch returns immediately, so no other
suggestion-generation branch contributes). -/
theorem linkOnly_short_circuit (f : TextFeatures)
    (engagement redFlags dwellTime authorDiversity filterRisk reach : ScoreResult)
    (hurl : 0 < f.urlCount) (hshort : f.strippedLength < 10) :
    generateSuggestions f engagement redFlags dwellTime authorDiversity filterRisk reach =
      [onlyLinkSuggestion1, onlyLinkSuggestion2, onlyLinkSuggestion3] ∧
    ∀ s ∈ generateSuggestions f engagement redFlags dwellTime authorDiversity filterRisk
        reach, s.priority = Priority.high := by
  have hcond : 0 < f.urlCount ∧ f.strippedLength < 10 := ⟨hurl, hshort⟩
  have hout : generateSuggestions f engagement redFlags dwellTime authorDiversity
      filterRisk reach = [onlyLinkSuggestion1, onlyLinkSuggestion2, onlyLinkSuggestion3] := by
    simp only [generateSuggestions]
    rw [if_pos hcond]
  refine ⟨hout, ?_⟩
  intro s hs
  rw [hout] at hs
  simp only [List.mem_cons, List.not_mem_nil, or_false] at hs
  rcases hs with rfl | rfl | rfl <;> rfl

theorem linkOnly_short_circuit_witness :
    generateSuggestions linkOnlyExample
        (calculateEngagementScore linkOnlyExample)
        (calculateRedFlagScore linkOnlyExample)
        (calculateDwellTimeScore linkOnlyExample)
        (calculateAuthorDiversityScore 0 24)
        (calculateFilterRiskScore linkOnlyExample)
        (calculateReachScore linkOnlyExample 1000) =
      [onlyLinkSuggestion1, onlyLinkSuggestion2, onlyLinkSuggestion3] ∧
    ∀ s ∈ generateSuggestions linkOnlyExample
        (calculateEngagementScore linkOnlyExample)
        (calculateRedFlagScore linkOnlyExample)
        (calculateDwellTimeScore linkOnlyExample)
        (calculateAuthorDiversityScore 0 24)
        (calculateFilterRiskScore linkOnlyExample)
        (calculateReachScore linkOnlyExample 1000), s.priority = Priority.high :=
  linkOnly_short_circuit linkOnlyExample
    (calculateEngagementScore linkOnlyExample)
    (calculateRedFlagScore linkOnlyExample)
    (calculateDwellTimeScore linkOnlyExample)
    (calculateAuthorDiversityScore 0 24)
    (calculateFilterRiskScore linkOnlyExample)
    (calculateReachScore linkOnlyExample 1000)
    (by decide) (by decide)

theorem mainSuggestions_ne_nil (f : TextFeatures)
    (engagement dwellTime authorDiversity filterRisk reach : ScoreResult) :
    mainSuggestions f engagement dwellTime authorDiversity filterRisk reach ≠ [] := by
  simp only [mainSuggestions]
  by_cases hcq : checksSuggestions f authorDiversity filterRisk ++
      qualitySuggestions f engagement dwellTime reach
        (checksSuggestions f authorDiversity filterRisk) = []
  · rw [if_pos hcq]
    simp [List.append_eq_nil]
  · rw [if_neg hcq]
    intro h
    apply hcq
    simpa using h

/-- C6: for every text (feature record) and options, the suggestion list
returned by `analyzePost` is non-empty; and whenever no check and no
fallback branch produced a suggestion, the generator returns exactly the
single low-priority generic encouragement tip. -/
theorem suggestions_never_empty :
    (∀ (f : TextFeatures) (options : AnalysisOptions),
      (analyzePost f options).suggestions ≠ []) ∧
    (∀ (f : TextFeatures)
      (engagement redFlags dwellTime authorDiversity filterRisk reach : ScoreResult),
      ¬(0 < f.urlCount ∧ f.strippedLength < 10) →
      checksSuggestions f authorDiversity filterRisk = [] →
      qualitySuggestions f engagement dwellTime reach
        (checksSuggestions f authorDiversity filterRisk) = [] →
      generateSuggestions f engagement redFlags dwellTime authorDiversity filterRisk
        reach = [goodStartSuggestion]) := by
  constructor
  · intro f options
    show generateSuggestions f (calculateEngagementScore f) (calculateRedFlagScore f)
        (calculateDwellTimeScore f)
        (calculateAuthorDiversityScore options.recentPostCount options.hoursSinceLastPost)
        (calculateFilterRiskScore f) (calculateReachScore f options.followerCount) ≠ []
    simp only [generateSuggestions]
    by_cases hc : 0 < f.urlCount ∧ f.strippedLength < 10
    · rw [if_pos hc]
      simp
    · rw [if_neg hc]
      intro h
      have hlen := congrArg List.length h
      rw [List.length_insertionSort] at hlen
      exact mainSuggestions_ne_nil f _ _ _ _ _ (List.length_eq_zero.mp hlen)
  · intro f engagement redFlags dwellTime authorDiversity filterRisk reach hno hc hq
    simp only [generateSuggestions]
    rw [if_neg hno]
    have hmain : mainSuggestions f engagement dwellTime authorDiversity filterRisk reach =
        [goodStartSuggestion] := by
      simp only [mainSuggestions]
      simp only [hq]
      simp only [hc]
      simp
    rw [hmain]
    rfl

theorem suggestions_never_empty_witness :
    (analyzePost {} {}).suggestions ≠ [] ∧
    generateSuggestions failsafeExample
      (calculateEngagementScore failsafeExample)
      (calculateRedFlagScore failsafeExample)
      (calculateDwellTimeScore failsafeExample)
      (calculateAuthorDiversityScore 0 24)
      (calculateFilterRiskScore failsafeExample)
      (calculateReachScore failsafeExample 1000) = [goodStartSuggestion] := by
  have hdv : (calculateAuthorDiversityScore 0 24).score = 100 := by decide
  have hchecks : checksSuggestions failsafeExample (calculateAuthorDiversityScore 0 24)
      (calculateFilterRiskScore failsafeExample) = [] := by
    simp only [checksSuggestions]
    rw [hdv]
    norm_num [failsafeExample]
  have hqual : qualitySuggestions failsafeExample
      (calculateEngagementScore failsafeExample)
      (calculateDwellTimeScore failsafeExample)
      (calculateReachScore failsafeExample 1000)
      (checksSuggestions failsafeExample (calculateAuthorDiversityScore 0 24)
        (calculateFilterRiskScore failsafeExample)) = [] := by
    have hnc1 : ¬(checksSuggestions failsafeExample (calculateAuthorDiversityScore 0 24)
          (calculateFilterRiskScore failsafeExample) = [] ∧
        180 < (calculateEngagementScore failsafeExample).score +
          (calculateDwellTimeScore failsafeExample).score +
          (calculateReachScore failsafeExample 1000).score ∧
        0 < failsafeExample.questionCount ∧ 100 ≤ failsafeExample.strippedLength) :=
      fun hcon => absurd hcon.2.2.2 (by decide)
    simp only [qualitySuggestions]
    rw [if_neg hnc1, if_pos hchecks]
    norm_num [failsafeExample]
  exact ⟨suggestions_never_empty.1 {} {},
    suggestions_never_empty.2 failsafeExample
      (calculateEngagementScore failsafeExample)
      (calculateRedFlagScore failsafeExample)
      (calculateDwellTimeScore failsafeExample)
      (calculateAuthorDiversityScore 0 24)
      (calculateFilterRiskScore failsafeExample)
      (calculateReachScore failsafeExample 1000)
      (by decide) hchecks hqual⟩

theorem filter_orderedInsert (p : Priority) (a : Suggestion) (l : List Suggestion) :
    (l.orderedInsert suggLE a).filter (fun s => decide (s.priority = p)) =
      if a.priority = p then
        a :: l.filter (fun s => decide (s.priority = p))
      else l.filter (fun s => decide (s.priority = p)) := by
  induction l with
  | nil =>
    by_cases hap : a.priority = p <;>
      simp [List.orderedInsert, List.filter, hap]
  | cons b t ih =>
    rw [List.orderedInsert]
    by_cases hab : suggLE a b
    · rw [if_pos hab]
      by_cases hap : a.priority = p <;> by_cases hbp : b.priority = p <;>
        simp [List.filter_cons, hap, hbp]
    · rw [if_neg hab]
      by_cases hap : a.priority = p
      · have hbp : ¬b.priority = p := by
          intro hbp
          exact hab (by unfold suggLE; rw [hap, hbp])
        simp [List.filter_cons, hap, hbp, ih]
      · by_cases hbp : b.priority = p <;> simp [List.filter_cons, hap, hbp, ih]

theorem filter_insertionSort (p : Priority) (l : List Suggestion) :
    (l.insertionSort suggLE).filter (fun s => decide (s.priority = p)) =
      l.filter (fun s => decide (s.priority = p)) := by
  induction l with
  | nil => rfl
  | cons b t ih =>
    rw [List.insertionSort, filter_orderedInsert, ih]
    by_cases hbp : b.priority = p <;> simp [List.filter_cons, hbp]

/-- C7: for every input, the returned suggestion list is sorted by
priority rank (high before medium before low), it is a permutation of
the suggestions in generation order, and the sort is stable: filtering
either list to any one priority yields the same (generation-ordered)
sublist. -/
theorem suggestions_sorted_and_stable (f : TextFeatures)
    (engagement redFlags dwellTime authorDiversity filterRisk reach : ScoreResult) :
    List.Sorted suggLE
      (generateSuggestions f engagement redFlags dwellTime authorDiversity filterRisk
        reach) ∧
    (generateSuggestions f engagement redFlags dwellTime authorDiversity filterRisk
        reach).Perm
      (generatedSuggestions f engagement dwellTime authorDiversity filterRisk reach) ∧
    ∀ p : Priority,
      (generateSuggestions f engagement redFlags dwellTime authorDiversity filterRisk
          reach).filter (fun s => decide (s.priority = p)) =
        (generatedSuggestions f engagement dwellTime authorDiversity filterRisk
          reach).filter (fun s => decide (s.priority = p)) := by
  by_cases hc : 0 < f.urlCount ∧ f.strippedLength < 10
  · simp only [generateSuggestions, generatedSuggestions]
    rw [if_pos hc, if_pos hc]
    refine ⟨?_, List.Perm.refl _, fun p => rfl⟩
    simp [List.Sorted, List.pairwise_cons, suggLE, onlyLinkSuggestion1,
      onlyLinkSuggestion2, onlyLinkSuggestion3, priorityOrder]
  · simp only [generateSuggestions, generatedSuggestions]
    rw [if_neg hc, if_neg hc]
    exact ⟨List.sorted_insertionSort suggLE _, List.perm_insertionSort suggLE _,
      fun p => filter_insertionSort p _⟩

theorem mem_ite_singleton {x y : Suggestion} {c : Prop} [Decidable c]
    (h : x ∈ (if c then [y] else ([] : List Suggestion))) : c ∧ x = y := by
  by_cases hc : c
  · rw [if_pos hc] at h
    exact ⟨hc, by simpa using h⟩
  · rw [if_neg hc] at h
    simp at h

theorem optimizationQuestion_not_mem_checks (f : TextFeatures)
    (authorDiversity filterRisk : ScoreResult) :
    optimizationQuestionSuggestion ∉ checksSuggestions f authorDiversity filterRisk := by
  intro h
  simp only [checksSuggestions, List.mem_append] at h
  rcases h with ((((((((h | h) | h) | h) | h) | h) | h) | h) | h) <;>
    · have he := (mem_ite_singleton h).2
      simp [optimizationQuestionSuggestion, mostlyLinkSuggestion,
        noQuestionSuggestion, tooShortSuggestion, externalLinkSuggestion,
        personalitySuggestion, formattingSuggestion, hashtagsSuggestion,
        postingFrequencySuggestion, mutedTermsSuggestion] at he

theorem optimizationQuestion_not_mem_quality (f : TextFeatures)
    (engagement dwellTime authorDiversity filterRisk reach : ScoreResult) :
    optimizationQuestionSuggestion ∉
      qualitySuggestions f engagement dwellTime reach
        (checksSuggestions f authorDiversity filterRisk) := by
  intro h
  simp only [qualitySuggestions] at h
  by_cases h1 : checksSuggestions f authorDiversity filterRisk = [] ∧
      180 < engagement.score + dwellTime.score + reach.score ∧
      0 < f.questionCount ∧ 100 ≤ f.strippedLength
  · rw [if_pos h1] at h
    simp [optimizationQuestionSuggestion, strongPostSuggestion] at h
  · rw [if_neg h1] at h
    by_cases h2 : checksSuggestions f authorDiversity filterRisk = []
    · rw [if_pos h2] at h
      rcases List.mem_append.mp h with hmem | hmem
      · obtain ⟨hcnd, -⟩ := mem_ite_singleton hmem
        simp only [checksSuggestions, List.append_eq_nil] at h2
        have hnq := h2.1.1.1.1.1.1.1.2
        rw [if_pos hcnd] at hnq
        simp at hnq
      · have he := (mem_ite_singleton hmem).2
        exact absurd he (by decide)
    · rw [if_neg h2] at h
      simp at h

/-- C9: the generic optimization tip "Consider adding a question to
maximize the 13.5x reply weight." is never emitted by the suggestion
generator: the fallback branch that could push it runs only when the
checks list is empty, and any text without a question mark has already
received the high-priority no-question suggestion, so at that point the
tip's guard is always false (dead code). -/
theorem optimizationQuestion_tip_never_emitted (f : TextFeatures)
    (engagement redFlags dwellTime authorDiversity filterRisk reach : ScoreResult) :
    optimizationQuestionSuggestion ∉
      generateSuggestions f engagement redFlags dwellTime authorDiversity filterRisk
        reach := by
  intro hmem
  by_cases honly : 0 < f.urlCount ∧ f.strippedLength < 10
  · simp only [generateSuggestions] at hmem
    rw [if_pos honly] at hmem
    simp [optimizationQuestionSuggestion, onlyLinkSuggestion1, onlyLinkSuggestion2,
      onlyLinkSuggestion3] at hmem
  · simp only [generateSuggestions] at hmem
    rw [if_neg honly, List.mem_insertionSort] at hmem
    simp only [mainSuggestions, List.mem_append] at hmem
    rcases hmem with (hc | hq) | hf
    · exact optimizationQuestion_not_mem_checks f authorDiversity filterRisk hc
    · exact optimizationQuestion_not_mem_quality f engagement dwellTime authorDiversity
        filterRisk reach hq
    · have he := (mem_ite_singleton hf).2
      exact absurd he (by decide)
